import Mathlib

/-!
Verification of the WordPress analysis module (`comission/CMS/WordPress.py`)
of the CoMisSion audit tool.

The source is shallowly embedded: each method of the `WP` class that the
properties below speak about is translated into a pure Lean function.
External effects (HTTP responses, the filesystem, regex scraping, the
proof-of-concept oracle) are passed in as explicit data or oracle
functions, so every function here is total and executable.
-/

namespace WP

/-! ## distutils.version.LooseVersion

`check_vulns_addon` compares versions with
`LooseVersion(addon["version"]) < LooseVersion(vuln["fixed_in"])`.
`LooseVersion.parse` splits the string with the regex
`(\d+ | [a-z]+ | \.)`, drops the `.` separators, converts digit runs to
ints and keeps every other maximal run as a string.  Comparison is
Python list comparison of the resulting lists: elementwise, an int/str
pair at the first differing position raises `TypeError`, and a falsy
argument (`None` or `""`) leaves `self.version` unset so any comparison
raises `AttributeError`.  ASCII digits are assumed throughout. -/

/-- One component of a `LooseVersion.version` list: a Python `int`
(decimal digit run) or a Python `str` (any other maximal run). -/
inductive VComp where
  | num (n : Nat)
  | alpha (s : String)
deriving DecidableEq, Repr

/-- Kind of a character run recognised by the `LooseVersion` component
regex `(\d+ | [a-z]+ | \.)`: digit runs, lowercase runs, and the
non-matching stretches in between. -/
inductive RunKind where
  | digit
  | lower
  | other
deriving DecidableEq, Repr

/-- Kind of a single character; `.` (dropped by `parse`) has no kind. -/
def charKind (c : Char) : Option RunKind :=
  if c.isDigit then some .digit
  else if c.isLower then some .lower
  else if c = '.' then none
  else some .other

/-- Python `int()` on a run of decimal digits. -/
def digitsToNat (cs : List Char) : Nat :=
  cs.foldl (fun a c => 10 * a + (c.toNat - 48)) 0

/-- Close the pending run: digit runs become `int` components, all other
runs stay strings (the run is accumulated in reverse). -/
def flushRun : Option (RunKind × List Char) → List VComp
  | none => []
  | some (.digit, cs) => [.num (digitsToNat cs.reverse)]
  | some (_, cs) => [.alpha (String.mk cs.reverse)]

/-- One step of the component scanner: extend the current run when the
kind matches, otherwise flush it; `.` flushes and is dropped. -/
def looseStep : List VComp × Option (RunKind × List Char) → Char →
    List VComp × Option (RunKind × List Char)
  | (acc, run), c =>
    match charKind c, run with
    | none, r => (acc ++ flushRun r, none)
    | some k, some (k', cs) =>
        if k = k' then (acc, some (k', c :: cs))
        else (acc ++ flushRun (some (k', cs)), some (k, [c]))
    | some k, none => (acc, some (k, [c]))

/-- `LooseVersion.parse`: the `version` list of a (non-falsy) string. -/
def looseParse (s : String) : List VComp :=
  let st := s.data.foldl looseStep ([], none)
  st.1 ++ flushRun st.2

/-- `LooseVersion(vstring)`.  A falsy argument (`None`, modelled as
`Option.none`, or the empty string) skips `parse`, so `self.version` is
never set and any later comparison raises `AttributeError`; that state
is modelled as `none`. -/
def looseVersion : Option String → Option (List VComp)
  | none => none
  | some s => if s = "" then none else some (looseParse s)

/-- Python list comparison on `version` lists, as performed by
`LooseVersion._cmp` (`==` first, then `<` / `>`).  At the first position
where the elements differ, an int/str pair raises `TypeError`
(`.error ()`); equality of lists never raises. -/
def pyCmp : List VComp → List VComp → Except Unit Ordering
  | [], [] => .ok .eq
  | [], _ :: _ => .ok .lt
  | _ :: _, [] => .ok .gt
  | x :: xs, y :: ys =>
    match x, y with
    | .num a, .num b => if a = b then pyCmp xs ys else .ok (compare a b)
    | .alpha a, .alpha b => if a = b then pyCmp xs ys else .ok (compare a b)
    | _, _ => .error ()

instance {ε α : Type _} [DecidableEq ε] [DecidableEq α] : DecidableEq (Except ε α) :=
  fun a b =>
    match a, b with
    | .ok x, .ok y =>
        if h : x = y then isTrue (h ▸ rfl) else isFalse (fun he => by cases he; exact h rfl)
    | .error x, .error y =>
        if h : x = y then isTrue (h ▸ rfl) else isFalse (fun he => by cases he; exact h rfl)
    | .ok _, .error _ => isFalse (fun he => by cases he)
    | .error _, .ok _ => isFalse (fun he => by cases he)

/-- `LooseVersion(a) <cmp> LooseVersion(b)`: `AttributeError` when either
side is falsy, otherwise Python list comparison of the parses. -/
def looseCompare (a b : Option String) : Except Unit Ordering :=
  match looseVersion a, looseVersion b with
  | some x, some y => pyCmp x y
  | _, _ => .error ()

/-- `LooseVersion(a) < LooseVersion(b)`, the comparison on line 308 of
`WordPress.py`; `.error ()` models the raised
`TypeError`/`AttributeError`. -/
def looseLt (a b : Option String) : Except Unit Bool :=
  (looseCompare a b).map (· == Ordering.lt)

example : looseCompare (some "1.2") (some "1.10") = .ok .lt := by decide
example : looseCompare (some "1.2.0") (some "1.2") = .ok .gt := by decide
example : looseParse "1.5.1-rc1" =
    [.num 1, .num 5, .num 1, .alpha "-", .alpha "rc", .num 1] := by decide
example : looseParse "a--b" = [.alpha "a", .alpha "--", .alpha "b"] := by decide
example : looseLt (some "1.0") (some "N/A") = .error () := by decide
example : looseLt (some "1.0") none = .error () := by decide
example : looseLt (some "") (some "1.0") = .error () := by decide

/-! ## Data model

The component record built in `addon_analysis` (`WordPress.py`, lines
387-402) is a Python dict; it is embedded as a structure.  The dict key
`type` is spelled `atype` (`type` is reserved in Lean); the optional key
`mu` (only set for plugins) is an `Option`. -/

/-- One entry of the `vulnerabilities` array returned by the wpvulndb
API: `{id, title, vuln_type, fixed_in}`.  `fixed_in` is `none` when the
JSON value is `null` (Python `None`). -/
structure VulnEntry where
  id : Nat
  title : String
  vuln_type : String
  fixed_in : Option String
deriving DecidableEq, Repr

/-- The `vuln_details` dict built for each reported vulnerability.  The
dict key `type` is spelled `vtype`.  `fixed_in` is copied verbatim from
the API entry, so it may be Python `None` (`Option.none`). -/
structure VulnDetails where
  name : String
  link : String
  vtype : String
  poc : String
  fixed_in : Option String
deriving DecidableEq, Repr

/-- The per-addon record created in `addon_analysis`. -/
structure Addon where
  atype : String
  status : String
  name : String
  version : String
  last_version : String
  last_release_date : String
  link : String
  altered : String
  cve : String
  vulns : List VulnDetails
  notes : String
  alterations : List String
  filename : String
  path : String
  mu : Option String := none
deriving DecidableEq, Repr

/-- An HTTP response as the embedded code observes it: a status code and
the already-decoded body (page text, parsed JSON, or extracted archive).
`response.raise_for_status()` raises `requests.exceptions.HTTPError`
exactly when the status is a 4xx/5xx client or server error. -/
structure Resp (β : Type) where
  status_code : Nat
  body : β

/-- `response.raise_for_status()` raises for this status. -/
def raisesHTTP (code : Nat) : Bool := 400 ≤ code

/-- Class attribute `WP.site_url`. -/
def site_url : String := "https://wordpress.org/"

/-- Class attribute `WP.download_addon_url`. -/
def download_addon_url : String := "https://downloads.wordpress.org/plugin/"

/-- Class attribute `WP.cve_ref_url`. -/
def cve_ref_url : String := "https://wpvulndb.com/api/v3/"

/-- The `url_details` local of both vulnerability checks. -/
def url_details : String := "https://wpvulndb.com/vulnerabilities/"

/-! ## WP.check_vulns_addon (lines 282-352)

The external pieces are passed in: `get_poc` is the `uCMS.get_poc`
oracle, and `resp` is the wpvulndb response with its body already
reduced to `page_json[addon["name"]]["vulnerabilities"]`. -/

/-- The `vuln_details` dict as filled in by `check_vulns_addon` (and,
with `flag = false`, identically by `check_vulns_core`): when `flag` is
set the comparison raised and the name carries the " To check : "
marker; `poc` is "CHECK" unless the PoC oracle answers positively. -/
def vulnDetailsOfEntry (get_poc : String → Bool) (flag : Bool) (v : VulnEntry) : VulnDetails :=
  let vuln_url := url_details ++ toString v.id
  { name := (if flag then " To check : " else "") ++ v.title
    link := vuln_url
    vtype := v.vuln_type
    poc := if get_poc vuln_url then "YES" else "CHECK"
    fixed_in := v.fixed_in }

/-- Body of the `for vuln in vulns` loop of `check_vulns_addon`: append
the entry when `LooseVersion(version) < LooseVersion(fixed_in)`, skip it
when the comparison answers no, and append the flagged entry when the
comparison raises `TypeError`/`AttributeError`. -/
def check_vulns_addon_step (get_poc : String → Bool) (version : String)
    (acc : List VulnDetails) (v : VulnEntry) : List VulnDetails :=
  match looseLt (some version) v.fixed_in with
  | .ok true => acc ++ [vulnDetailsOfEntry get_poc false v]
  | .ok false => acc
  | .error _ => acc ++ [vulnDetailsOfEntry get_poc true v]

/-- `WP.check_vulns_addon`.  Returns the updated record, the Python
return value `(vulns, err)` (`Sum.inl ""` is the `""` returned on
`HTTPError`, `some ()` the returned exception). -/
def check_vulns_addon (get_poc : String → Bool) (resp : Resp (List VulnEntry))
    (addon : Addon) : Addon × (String ⊕ List VulnEntry) × Option Unit :=
  if raisesHTTP resp.status_code then
    ({ addon with cve := "NO" }, Sum.inl "", some ())
  else if resp.status_code = 200 then
    let vulns := resp.body
    let newVulns := vulns.foldl (check_vulns_addon_step get_poc addon.version) addon.vulns
    ({ addon with
        vulns := newVulns
        cve := if newVulns.isEmpty then "NO" else "YES" },
      Sum.inr vulns, none)
  else
    (addon, Sum.inr [], none)

/-! ## WP.check_vulns_core (lines 226-280)

`resp.body` is `page_json[version_core]["vulnerabilities"]`. -/

/-- The query URL built by `check_vulns_core`: the installed core
version with the `.` separators stripped. -/
def core_vulns_url (version_core : String) : String :=
  cve_ref_url ++ "wordpresses/" ++ (version_core.replace "." "")

/-- Body of the `for vuln in vulns` loop of `check_vulns_core`: every
entry is appended, with no version comparison. -/
def check_vulns_core_step (get_poc : String → Bool)
    (acc : List VulnDetails) (v : VulnEntry) : List VulnDetails :=
  acc ++ [vulnDetailsOfEntry get_poc false v]

/-- `WP.check_vulns_core`.  Returns the Python pair `(vulns_details,
err)`; on `HTTPError` the result value is the string `""`. -/
def check_vulns_core (get_poc : String → Bool) (resp : Resp (List VulnEntry)) :
    (String ⊕ List VulnDetails) × Option Unit :=
  if raisesHTTP resp.status_code then
    (Sum.inl "", some ())
  else if resp.status_code = 200 then
    (Sum.inr (resp.body.foldl (check_vulns_core_step get_poc) []), none)
  else
    (Sum.inr [], none)

/-! ## WP.get_addon_last_version (lines 125-171)

The compiled regexes `regex_version_addon_web_plugin/theme` and
`regex_date_last_release_plugin/theme` are external machinery
(`re.search` over the fetched page); they are passed as oracles
returning `group(1)` of the first match, or `none` when the pattern
does not match. -/

/-- The four scraping regexes of `WP.__init__`, as search oracles:
page text to `group(1)` of the first match. -/
structure Scrape where
  version_plugin : String → Option String
  date_plugin : String → Option String
  version_theme : String → Option String
  date_theme : String → Option String

/-- The `releases_url` local, `"{}{}/{}/".format(self.site_url,
addon["type"], addon["name"])`. -/
def releases_url (addon : Addon) : String :=
  site_url ++ addon.atype ++ "/" ++ addon.name ++ "/"

/-- Result of `get_addon_last_version`: the updated record, the Python
return pair, and the verdict logged on the success path —
`some true` for the "Up to date !" line, `some false` for the
"Outdated, last version: ..." alert, `none` when neither is printed. -/
structure LastVersionOut where
  addon : Addon
  ret : String
  err : Option Unit
  upToDateLog : Option Bool
deriving Repr

/-- `WP.get_addon_last_version`.  In the pipeline `addon["type"]` is
always "plugins" or "themes"; the theme regex pair is selected on the
`elif` branch, i.e. whenever the type is not "plugins". -/
def get_addon_last_version (sc : Scrape) (resp : Resp String) (addon : Addon) :
    LastVersionOut :=
  let version_web_regexp := if addon.atype = "plugins" then sc.version_plugin else sc.version_theme
  let date_last_release_regexp := if addon.atype = "plugins" then sc.date_plugin else sc.date_theme
  if raisesHTTP resp.status_code then
    { addon := { addon with notes := "Addon not on official site. Search manually !" }
      ret := ""
      err := some ()
      upToDateLog := none }
  else if resp.status_code = 200 then
    match version_web_regexp resp.body, date_last_release_regexp resp.body with
    | some v, some d =>
      let addon1 := { addon with
        last_version := v
        last_release_date := String.mk (d.data.takeWhile (fun c => c ≠ 'T'))
        link := releases_url addon }
      { addon := addon1
        ret := addon1.last_version
        err := none
        upToDateLog := some (addon1.last_version = addon1.version) }
    | _, _ => { addon := addon, ret := addon.last_version, err := none, upToDateLog := none }
  else
    { addon := addon, ret := addon.last_version, err := none, upToDateLog := none }

/-! ## Directory trees and WP.check_addon_alteration (lines 173-224)

A directory tree is a list of files, each carrying its relative path
(a `/`-separated string), its byte content, and the filesystem metadata
(mtime, permissions) that the content hash must ignore. -/

/-- A file of a directory tree.  `mtime` and `perms` model the
filesystem metadata that is present on disk but must not influence the
content-identity hash. -/
structure FSFile where
  fpath : String
  content : String
  mtime : Nat
  perms : Nat
deriving DecidableEq, Repr

/-- A directory tree: its files with relative paths. -/
abbrev Tree : Type := List FSFile

/-- The (path, content) pair a file contributes to the hash. -/
def fileDigest (f : FSFile) : String := f.fpath ++ ":" ++ f.content

/-- Lexicographic order on character lists, by code point. -/
def charListLe : List Char → List Char → Bool
  | [], _ => true
  | _ :: _, [] => false
  | a :: as, b :: bs =>
    if a.toNat < b.toNat then true
    else if b.toNat < a.toNat then false
    else charListLe as bs

/-- Lexicographic byte order on strings, used as the deterministic
traversal order of the hashing and diffing collaborators. -/
def strLe (a b : String) : Bool := charListLe a.data b.data

/-- `strLe` as a decidable relation (for `List.insertionSort`). -/
def strLeR (a b : String) : Prop := strLe a b = true

instance : DecidableRel strLeR := fun a b =>
  inferInstanceAs (Decidable (strLe a b = true))

/-- Modelled from the spec: `checksumdir.dirhash(path, "sha1")`, the
external content-hashing collaborator called on lines 196-198 (the
`checksumdir` package is not part of this repository).  Per the spec it
is "a pure function over (sorted relative path, content bytes) pairs
combined into a single digest"; the digest is modelled by the sorted
concatenation of the per-file digests, which depends on nothing but
relative paths and content bytes. -/
def dirhash (t : Tree) : String :=
  String.intercalate "|" (List.insertionSort strLeR (t.map fileDigest))

/-- The `ignored` list of `check_addon_alteration` (line 207), passed to
`dircmp` as directory names to hide at every level of the comparison. -/
def ignored_dirs : List String := ["css", "img", "js", "fonts", "images"]

/-- Split a string at `/`, Python `"a/b".split("/")` style (empty
components kept). -/
def pathComponents (p : String) : List String :=
  (p.data.foldr
    (fun c acc =>
      if c = '/' then [] :: acc
      else
        match acc with
        | [] => [[c]]
        | h :: t => (c :: h) :: t)
    [[]]).map String.mk

/-- A relative path is excluded from the diff when one of its directory
components is an ignored asset directory name. -/
def excludedPath (p : String) : Bool :=
  ((pathComponents p).dropLast).any (fun c => ignored_dirs.contains c)

/-- Content of the file at relative path `p`, when present. -/
def lookupFile (t : Tree) (p : String) : Option String :=
  (t.find? (fun f => f.fpath = p)).map (fun f => f.content)

/-- Modelled from the spec: `uCMS.diff_files(dcmp, addon["alterations"],
addon_path)` over `dircmp(addon_path, ref_dir, ignored)`
(`comission/utilsCMS.py` is not part of src/).  Per the spec it is an
"ordered recursive structural diff between the two trees, excluding a
fixed set of asset-type subdirectories", collecting "the relative paths
of every file present, absent, or content-differing outside the
excluded set, in a stable traversal order (lexical by path)". -/
def diff_files (installed ref : Tree) : List String :=
  let paths := List.insertionSort strLeR
    ((installed.map (fun f => f.fpath)) ++ (ref.map (fun f => f.fpath))).dedup
  paths.filter (fun p =>
    !excludedPath p && !(lookupFile installed p == lookupFile ref p))

/-- The download URL built on lines 177-182: versioned archive, or the
unversioned one when the installed version is the literal "trunk". -/
def addon_zip_url (addon : Addon) : String :=
  if addon.version = "trunk" then
    download_addon_url ++ addon.name ++ ".zip"
  else
    download_addon_url ++ addon.name ++ "." ++ addon.version ++ ".zip"

/-- Result of `check_addon_alteration`: updated record plus the Python
return pair (the returned string and the optional `HTTPError`). -/
structure AlterationOut where
  addon : Addon
  ret : String
  err : Option Unit
deriving Repr

/-- `WP.check_addon_alteration`.  `installed` is the tree at
`addon_path`; `resp.body` is the reference tree extracted from the
downloaded zip (the content of `temp_directory/addon["name"]`). -/
def check_addon_alteration (installed : Tree) (resp : Resp Tree) (addon : Addon) :
    AlterationOut :=
  if raisesHTTP resp.status_code then
    let msg := "The download link is not standard. Search manually !"
    { addon := { addon with notes := msg }, ret := msg, err := some () }
  else if resp.status_code = 200 then
    let ref := resp.body
    if dirhash installed = dirhash ref then
      { addon := { addon with altered := "NO" }, ret := "NO", err := none }
    else
      { addon := { addon with
          altered := "YES"
          alterations := addon.alterations ++ diff_files installed ref }
        ret := "YES"
        err := none }
  else
    { addon := addon, ret := "", err := none }

/-! ## WP.addon_analysis (lines 357-448) and its collaborators -/

/-- `os.path.join` on the paths this module builds (no absolute second
component arises here). -/
def joinPath (a b : String) : String := a ++ "/" ++ b

/-- External inputs of one `addon_analysis` run, as oracles keyed by the
strings the source builds: discovery results, `os.path.isfile`, the
version-extraction outcome, the HTTP responses of the three remote
stages, the installed tree at a path, and the PoC oracle. -/
structure PipelineEnv where
  fetch_addons : String → String → List String
  isfile : String → Bool
  version_result : String → String → Except String String
  page_resp : String → Resp String
  scrape : Scrape
  vulndb_resp : String → Resp (List VulnEntry)
  zip_resp : String → Resp Tree
  tree_at : String → Tree
  get_poc : String → Bool

/-- `WP.get_addon_main_file` (lines 89-112).  For themes the main file
is `style.css`; for plugins the candidate list is
`[name + ".php", "plugin.php"]` with `plugin.php` appended once more
for non-mu plugins, filtered by `os.path.isfile`, first hit wins, and
`"nofile"` is stored when nothing exists. -/
def get_addon_main_file (isfile : String → Bool) (addon : Addon) (addon_path : String) :
    Addon :=
  if addon.atype = "themes" then
    { addon with filename := "style.css" }
  else if addon.atype = "plugins" then
    let filename_list := [addon.name ++ ".php", "plugin.php"]
    let filename_list :=
      if addon.mu ≠ some "YES" then filename_list ++ ["plugin.php"] else filename_list
    let main_file := filename_list.filter (fun fn => isfile (joinPath addon_path fn))
    match main_file with
    | [] => { addon with filename := "nofile" }
    | fn :: _ => { addon with filename := fn }
  else
    addon

/-- Modelled from the spec: `GenericCMS.get_addon_version(addon,
addon_path, regex, " ")` (defined in `comission/CMS/GenericCMS.py`,
which is not under src/).  Per the spec it locates the component's main
file and extracts the installed version "via a single anchored pattern
search (first match wins; absence of a match is a hard failure for that
component, reported, not fatal to the run)"; on success the version is
stored on the record, on failure the record's notes are set.  The
outcome is supplied by the `version_result` oracle on (path, filename). -/
def get_addon_version (env : PipelineEnv) (addon : Addon) (addon_path : String) :
    Addon × Option Unit :=
  match env.version_result addon_path addon.filename with
  | .ok v => ({ addon with version := v }, none)
  | .error msg => ({ addon with notes := msg }, some ())

/-- The fresh record built at the top of the `for addon_name` loop
(lines 387-402). -/
def init_addon (addon_type addon_name : String) : Addon :=
  { atype := addon_type
    status := "todo"
    name := addon_name
    version := ""
    last_version := "Not found"
    last_release_date := ""
    link := ""
    altered := ""
    cve := ""
    vulns := []
    notes := ""
    alterations := []
    filename := ""
    path := ""
    mu := none }

/-- Lines 405-412: the addon path defaults to
`os.path.join(addons_path, addon_name)`; for plugins the `mu` marker is
set, and for must-use plugins the path is the mu-plugins directory
itself. -/
def mu_adjust (addon_type key addons_path addon_path : String) (addon : Addon) :
    Addon × String :=
  if addon_type = "plugins" then
    if key = "mu" then ({ addon with mu := some "YES" }, addons_path)
    else ({ addon with mu := some "NO" }, addon_path)
  else (addon, addon_path)

/-- The four-stage analysis of one discovered addon, after the mu
adjustment: main-file resolution, then version extraction,
latest-version lookup, vulnerability check and alteration check, each
stage reached only when the previous one reported no error. -/
def analyse_one_addon (env : PipelineEnv) (addon_type key addons_path addon_name : String) :
    Addon :=
  let st := mu_adjust addon_type key addons_path (joinPath addons_path addon_name)
    (init_addon addon_type addon_name)
  let addon := get_addon_main_file env.isfile st.1 st.2
  let addon_path := st.2
  let r1 := get_addon_version env addon addon_path
  if r1.2.isSome then r1.1 else
  let r2 := get_addon_last_version env.scrape (env.page_resp (releases_url r1.1)) r1.1
  if r2.err.isSome then r2.addon else
  let r3 := check_vulns_addon env.get_poc (env.vulndb_resp r2.addon.name) r2.addon
  if r3.2.2.isSome then r3.1 else
  let r4 := check_addon_alteration (env.tree_at addon_path)
    (env.zip_resp (addon_zip_url r3.1)) r3.1
  r4.addon

/-- The `addons_paths` dict (lines 372-380), in insertion order. -/
def wp_addons_paths (dir_path wp_content plugins_dir themes_dir addon_type : String) :
    List (String × String) :=
  if addon_type = "plugins" then
    [("standard", plugins_dir), ("mu", joinPath (joinPath dir_path wp_content) "mu-plugins")]
  else if addon_type = "themes" then
    [("standard", themes_dir)]
  else
    []

/-- `WP.addon_analysis`: for every `(key, addons_path)` pair, discover
the addon names with `uCMS.fetch_addons` and append one analysed record
per name, in order. -/
def addon_analysis (env : PipelineEnv)
    (dir_path wp_content plugins_dir themes_dir addon_type : String) : List Addon :=
  ((wp_addons_paths dir_path wp_content plugins_dir themes_dir addon_type).map
    (fun kp => (env.fetch_addons kp.2 kp.1).map
      (analyse_one_addon env addon_type kp.1 kp.2))).flatten

/-! ## WP.get_wp_content (lines 68-87) -/

/-- `WP.get_wp_content`.  `subdirs p` models `next(os.walk(p))[1]`, the
list of directory names directly under `p`.  A directory is a suspect
when both "plugins" and "themes" are among its subdirectories; when no
suspect is found the default "wp-content" is appended. -/
def get_wp_content (subdirs : String → List String) (dir_path : String) : List String :=
  let tocheck := ["plugins", "themes"]
  let suspects := (subdirs dir_path).filter
    (fun dirname => tocheck.all (fun t => (subdirs (joinPath dir_path dirname)).contains t))
  if suspects.length = 0 then suspects ++ ["wp-content"] else suspects

/-! ## Concrete inputs used in witnesses and counterexamples -/

/-- A constant PoC oracle. -/
def noPoc : String → Bool := fun _ => false

/-- A vulnerability entry whose `fixed_in` is JSON `null`. -/
def exEntryNull : VulnEntry := { id := 7, title := "SQLi", vuln_type := "SQLI", fixed_in := none }

/-- A vulnerability entry with a comparable `fixed_in`. -/
def exEntryHigh : VulnEntry := { id := 8, title := "XSS", vuln_type := "XSS", fixed_in := some "1.5" }

/-- A vulnerability entry fixed before the installed version `1.0`. -/
def exEntryLow : VulnEntry := { id := 9, title := "RCE", vuln_type := "RCE", fixed_in := some "0.9" }

/-- An addon record as created at the top of the analysis loop, with the
installed version already extracted. -/
def exAddon : Addon := { init_addon "plugins" "foo" with version := "1.0" }

/-- An installed tree whose only difference from `exRef` is the content
of a file below the excluded `css` directory (plus metadata). -/
def exInstalled : Tree :=
  [{ fpath := "style.css", content := "body", mtime := 10, perms := 644 },
   { fpath := "css/a.css", content := "x", mtime := 10, perms := 644 }]

/-- The reference tree for `exInstalled`. -/
def exRef : Tree :=
  [{ fpath := "style.css", content := "body", mtime := 99, perms := 600 },
   { fpath := "css/a.css", content := "y", mtime := 99, perms := 600 }]

/-- `exInstalled` with different metadata but identical paths/contents. -/
def exInstalledMeta : Tree :=
  [{ fpath := "css/a.css", content := "x", mtime := 3, perms := 755 },
   { fpath := "style.css", content := "body", mtime := 4, perms := 700 }]

/-- A scraping oracle answering constant results. -/
def exScrape : Scrape :=
  { version_plugin := fun _ => some "0.9"
    date_plugin := fun _ => some "2019-01-01T00:00:00"
    version_theme := fun _ => none
    date_theme := fun _ => none }

/-! # Theorems -/

/-! ## Helper lemmas -/

theorem mem_check_vulns_addon_step_of_mem {g : String → Bool} {ver : String}
    {a : VulnDetails} {acc : List VulnDetails} (v : VulnEntry)
    (h : a ∈ acc) : a ∈ check_vulns_addon_step g ver acc v := by
  unfold check_vulns_addon_step
  rcases hc : looseLt (some ver) v.fixed_in with e | b
  · exact List.mem_append_left _ h
  · cases b
    · exact h
    · exact List.mem_append_left _ h

theorem mem_foldl_check_vulns_addon_step {g : String → Bool} {ver : String}
    {a : VulnDetails} (l : List VulnEntry) (acc : List VulnDetails)
    (h : a ∈ acc) : a ∈ l.foldl (check_vulns_addon_step g ver) acc := by
  induction l generalizing acc with
  | nil => exact h
  | cons v t ih => exact ih _ (mem_check_vulns_addon_step_of_mem v h)

theorem flagged_mem_foldl_check_vulns_addon_step {g : String → Bool} {ver : String}
    {v : VulnEntry} (l : List VulnEntry) (acc : List VulnDetails)
    (hv : v ∈ l) (herr : looseLt (some ver) v.fixed_in = .error ()) :
    vulnDetailsOfEntry g true v ∈ l.foldl (check_vulns_addon_step g ver) acc := by
  induction l generalizing acc with
  | nil => cases hv
  | cons w t ih =>
    rcases List.mem_cons.mp hv with rfl | hvt
    · refine mem_foldl_check_vulns_addon_step t _ ?_
      unfold check_vulns_addon_step
      rw [herr]
      exact List.mem_append_right _ (List.mem_singleton.mpr rfl)
    · exact ih _ hvt

theorem pyCmp_self_append (xs ys : List VComp) (h : ys ≠ []) :
    pyCmp xs (xs ++ ys) = .ok .lt := by
  induction xs with
  | nil =>
    cases ys with
    | nil => exact absurd rfl h
    | cons y t => rfl
  | cons x t ih =>
    cases x with
    | num a => simpa [pyCmp] using ih
    | alpha s => simpa [pyCmp] using ih

/-! ## C1 -/

/-- C1 counterexample: the comparator used on line 308 does no zero
padding — `LooseVersion("1.2.0")` compares strictly greater than
`LooseVersion("1.2")`, not equal to it. -/
theorem looseCompare_not_zero_padded :
    looseCompare (some "1.2.0") (some "1.2") = .ok .gt ∧
    ¬ looseCompare (some "1.2.0") (some "1.2") = .ok .eq := by
  constructor
  · decide
  · decide

/-- C1 (amended): the ordered version comparison splits on separators
and compares numeric runs left to right (`"1.2" < "1.10"`), but the
shorter sequence is not padded with zeros: whenever one parsed sequence
is a proper prefix of the other, the shorter compares strictly smaller,
so `"1.2" < "1.2.0"` and the two are not equal. -/
theorem looseCompare_numeric_runs :
    (looseCompare (some "1.2") (some "1.10") = .ok .lt ∧
     looseCompare (some "1.2") (some "1.2.0") = .ok .lt ∧
     looseCompare (some "1.2") (some "1.2") = .ok .eq) ∧
    (∀ xs ys : List VComp, ys ≠ [] → pyCmp xs (xs ++ ys) = .ok .lt) := by
  refine ⟨⟨by decide, by decide, by decide⟩, ?_⟩
  exact pyCmp_self_append

/-- C1 witness: the no-padding clause applied at a concrete input. -/
theorem looseCompare_numeric_runs_witness :
    pyCmp [VComp.num 1, VComp.num 2] ([VComp.num 1, VComp.num 2] ++ [VComp.num 0]) =
      .ok .lt :=
  looseCompare_numeric_runs.2 [VComp.num 1, VComp.num 2] [VComp.num 0] (by decide)

/-! ## C2 -/

/-- C2: when the version comparison for an entry raises
(`TypeError`/`AttributeError`, here `looseLt = .error ()`), the entry is
still included in the addon's vulnerability list, flagged with the
" To check : " marker, and `check_vulns_addon` returns normally (no
exception propagates: the returned error component is `none`). -/
theorem check_vulns_addon_keeps_incomparable :
    ∀ (g : String → Bool) (resp : Resp (List VulnEntry)) (addon : Addon) (v : VulnEntry),
      resp.status_code = 200 → v ∈ resp.body →
      looseLt (some addon.version) v.fixed_in = .error () →
      vulnDetailsOfEntry g true v ∈ (check_vulns_addon g resp addon).1.vulns ∧
      (check_vulns_addon g resp addon).2.2 = none := by
  intro g resp addon v h200 hv herr
  unfold check_vulns_addon
  rw [h200]
  refine ⟨?_, rfl⟩
  simpa using flagged_mem_foldl_check_vulns_addon_step resp.body addon.vulns hv herr

/-- C2 witness: a `null` `fixed_in` makes the comparison raise; the
flagged entry is present in the output record and no error is returned. -/
theorem check_vulns_addon_keeps_incomparable_witness :
    vulnDetailsOfEntry noPoc true exEntryNull ∈
      (check_vulns_addon noPoc ⟨200, [exEntryNull]⟩ exAddon).1.vulns ∧
    (check_vulns_addon noPoc ⟨200, [exEntryNull]⟩ exAddon).2.2 = none :=
  check_vulns_addon_keeps_incomparable noPoc ⟨200, [exEntryNull]⟩ exAddon exEntryNull
    rfl (by decide) (by decide)

/-! ## C3 -/

/-- C3: with a 200 download, equal content hashes set the altered flag
to "NO"; different hashes set it to "YES" and append the
exclusion-filtered diff, so when the two trees differ only inside the
excluded asset directories (as `exInstalled` / `exRef` do under `css`)
the record ends with `altered = "YES"` and an empty alterations list. -/
theorem check_addon_alteration_flag :
    (∀ (installed : Tree) (resp : Resp Tree) (addon : Addon),
      resp.status_code = 200 →
      (dirhash installed = dirhash resp.body →
        (check_addon_alteration installed resp addon).addon =
          { addon with altered := "NO" }) ∧
      (dirhash installed ≠ dirhash resp.body →
        (check_addon_alteration installed resp addon).addon =
          { addon with
              altered := "YES"
              alterations := addon.alterations ++ diff_files installed resp.body })) ∧
    ((check_addon_alteration exInstalled ⟨200, exRef⟩ exAddon).addon.altered = "YES" ∧
     (check_addon_alteration exInstalled ⟨200, exRef⟩ exAddon).addon.alterations = []) := by
  constructor
  · intro installed resp addon h200
    unfold check_addon_alteration
    rw [h200]
    constructor
    · intro heq
      simp [raisesHTTP, heq]
    · intro hne
      simp [raisesHTTP, hne]
  · constructor
    · decide
    · decide

/-- C3 witness: the hash-equal clause applied to metadata-only changes —
same paths and contents, different mtimes/permissions, flag "NO". -/
theorem check_addon_alteration_flag_witness :
    (check_addon_alteration exInstalled ⟨200, exInstalledMeta⟩ exAddon).addon =
      { exAddon with altered := "NO" } :=
  ((check_addon_alteration_flag.1 exInstalled ⟨200, exInstalledMeta⟩ exAddon rfl).1
    (by decide))

/-! ## C4 -/

/-- C4 counterexample: on the failure path of `check_vulns_addon`
(lines 347-351) a field other than `notes` is written — the result
differs from the input record even after discarding its `notes` field,
because `cve` is set to "NO" (and `notes` itself is left untouched). -/
theorem check_vulns_addon_failure_not_notes_only :
    (check_vulns_addon noPoc ⟨404, []⟩ exAddon).1 ≠
      { exAddon with notes := (check_vulns_addon noPoc ⟨404, []⟩ exAddon).1.notes } := by
  decide

/-- C4 (amended): on their failure paths, `get_addon_last_version` and
`check_addon_alteration` write exactly the `notes` field of the record;
`check_vulns_addon`, however, writes exactly the `cve` field (setting it
to "NO") and does not touch `notes`. -/
theorem stage_failure_single_field :
    ∀ (addon : Addon),
      (∀ (sc : Scrape) (resp : Resp String), raisesHTTP resp.status_code = true →
        (get_addon_last_version sc resp addon).addon =
          { addon with notes := "Addon not on official site. Search manually !" }) ∧
      (∀ (installed : Tree) (resp : Resp Tree), raisesHTTP resp.status_code = true →
        (check_addon_alteration installed resp addon).addon =
          { addon with notes := "The download link is not standard. Search manually !" }) ∧
      (∀ (g : String → Bool) (resp : Resp (List VulnEntry)),
        raisesHTTP resp.status_code = true →
        (check_vulns_addon g resp addon).1 = { addon with cve := "NO" }) := by
  intro addon
  refine ⟨?_, ?_, ?_⟩
  · intro sc resp h
    unfold get_addon_last_version
    rw [h]
    rfl
  · intro installed resp h
    unfold check_addon_alteration
    rw [h]
    rfl
  · intro g resp h
    unfold check_vulns_addon
    rw [h]
    rfl

/-- C4 witness: the three failure paths at a concrete 404 response. -/
theorem stage_failure_single_field_witness :
    (get_addon_last_version exScrape ⟨404, ""⟩ exAddon).addon =
      { exAddon with notes := "Addon not on official site. Search manually !" } ∧
    (check_addon_alteration exInstalled ⟨404, exRef⟩ exAddon).addon =
      { exAddon with notes := "The download link is not standard. Search manually !" } ∧
    (check_vulns_addon noPoc ⟨404, []⟩ exAddon).1 = { exAddon with cve := "NO" } :=
  ⟨(stage_failure_single_field exAddon).1 exScrape ⟨404, ""⟩ (by decide),
   (stage_failure_single_field exAddon).2.1 exInstalled ⟨404, exRef⟩ (by decide),
   (stage_failure_single_field exAddon).2.2 noPoc ⟨404, []⟩ (by decide)⟩

/-! ## C5 -/

/-- C5 counterexample: a non-200 response that is not an HTTP error
(status 204, which `raise_for_status` lets through) does not set the
addon's cve flag to "NO" — the record is returned unchanged, with
`cve = ""`. -/
theorem check_vulns_addon_204_leaves_cve :
    (204 ≠ 200) ∧ (check_vulns_addon noPoc ⟨204, []⟩ exAddon).1.cve ≠ "NO" := by
  decide

/-- C5 (amended): when the vulnerability database answers with an HTTP
error status (≥ 400, including not-found), `check_vulns_addon` sets the
component's cve flag to "NO" while `check_vulns_core` yields the empty
result `""` without recording any failure state; a non-200 success
status leaves the addon record unchanged and yields an empty list for
core. -/
theorem vulndb_error_channel :
    ∀ (g : String → Bool) (resp : Resp (List VulnEntry)) (addon : Addon),
      (raisesHTTP resp.status_code = true →
        (check_vulns_addon g resp addon).1.cve = "NO" ∧
        (check_vulns_core g resp).1 = Sum.inl "") ∧
      (raisesHTTP resp.status_code = false → resp.status_code ≠ 200 →
        (check_vulns_addon g resp addon).1 = addon ∧
        (check_vulns_core g resp).1 = Sum.inr [] ∧
        (check_vulns_core g resp).2 = none) := by
  intro g resp addon
  constructor
  · intro h
    unfold check_vulns_addon check_vulns_core
    rw [h]
    exact ⟨rfl, rfl⟩
  · intro h h200
    unfold check_vulns_addon check_vulns_core
    rw [h]
    simp [h200]

/-- C5 witness: both halves at concrete responses (404 and 204). -/
theorem vulndb_error_channel_witness :
    ((check_vulns_addon noPoc ⟨404, []⟩ exAddon).1.cve = "NO" ∧
     (check_vulns_core noPoc ⟨404, []⟩).1 = Sum.inl "") ∧
    ((check_vulns_addon noPoc ⟨204, []⟩ exAddon).1 = exAddon ∧
     (check_vulns_core noPoc ⟨204, []⟩).1 = Sum.inr [] ∧
     (check_vulns_core noPoc ⟨204, []⟩).2 = none) :=
  ⟨(vulndb_error_channel noPoc ⟨404, []⟩ exAddon).1 (by decide),
   (vulndb_error_channel noPoc ⟨204, []⟩ exAddon).2 (by decide) (by decide)⟩

/-! ## C6 -/

/-- C6: on the success path the up-to-date verdict is exact string
equality between the scraped latest version and the installed version:
the "Up to date !" line is logged iff they are equal as strings, and any
other scraped value — even one that is numerically smaller — produces
the "Outdated" alert. -/
theorem up_to_date_is_string_equality :
    ∀ (sc : Scrape) (resp : Resp String) (addon : Addon) (v d : String),
      resp.status_code = 200 →
      (if addon.atype = "plugins" then sc.version_plugin else sc.version_theme) resp.body
        = some v →
      (if addon.atype = "plugins" then sc.date_plugin else sc.date_theme) resp.body
        = some d →
      (get_addon_last_version sc resp addon).addon.last_version = v ∧
      ((get_addon_last_version sc resp addon).upToDateLog = some true ↔ v = addon.version) ∧
      ((get_addon_last_version sc resp addon).upToDateLog = some false ↔ v ≠ addon.version) := by
  intro sc resp addon v d h200 hv hd
  simp only [get_addon_last_version, h200, hv, hd]
  simp [raisesHTTP]

/-- C6 witness: installed "1.0", scraped latest "0.9" — numerically
smaller yet different as a string, so the outdated alert is raised. -/
theorem up_to_date_is_string_equality_witness :
    (get_addon_last_version exScrape ⟨200, "page"⟩ exAddon).upToDateLog = some false :=
  ((up_to_date_is_string_equality exScrape ⟨200, "page"⟩ exAddon "0.9" "2019-01-01T00:00:00"
      rfl rfl rfl).2.2).mpr (by decide)

/-! ## C7 -/

/-- C7: with a 200 response, `check_vulns_core` includes every returned
entry, in order and unconditionally — the result is exactly the map of
the details constructor over the response body, with no version gating,
and no error is returned. -/
theorem check_vulns_core_includes_all :
    ∀ (g : String → Bool) (resp : Resp (List VulnEntry)),
      resp.status_code = 200 →
      (check_vulns_core g resp).1 =
        Sum.inr (resp.body.map (vulnDetailsOfEntry g false)) ∧
      (check_vulns_core g resp).2 = none := by
  intro g resp h200
  have hfold : ∀ (l : List VulnEntry) (acc : List VulnDetails),
      l.foldl (check_vulns_core_step g) acc = acc ++ l.map (vulnDetailsOfEntry g false) := by
    intro l
    induction l with
    | nil => intro acc; simp
    | cons v t ih =>
      intro acc
      simp [check_vulns_core_step, ih]
  simp [check_vulns_core, h200, raisesHTTP, hfold]

/-- C7 witness: both a fixed-in-past and a fixed-in-future entry are
included for core. -/
theorem check_vulns_core_includes_all_witness :
    (check_vulns_core noPoc ⟨200, [exEntryLow, exEntryHigh]⟩).1 =
      Sum.inr [vulnDetailsOfEntry noPoc false exEntryLow,
               vulnDetailsOfEntry noPoc false exEntryHigh] ∧
    (check_vulns_core noPoc ⟨200, [exEntryLow, exEntryHigh]⟩).2 = none :=
  check_vulns_core_includes_all noPoc ⟨200, [exEntryLow, exEntryHigh]⟩ rfl

/-! ## C8 -/

theorem mu_adjust_name (addon_type key addons_path addon_path : String) (addon : Addon) :
    (mu_adjust addon_type key addons_path addon_path addon).1.name = addon.name := by
  unfold mu_adjust
  split_ifs <;> rfl

theorem get_addon_main_file_name (isfile : String → Bool) (addon : Addon) (p : String) :
    (get_addon_main_file isfile addon p).name = addon.name := by
  unfold get_addon_main_file
  split_ifs <;> first
  | rfl
  | (dsimp only; split <;> rfl)

theorem get_addon_version_name (env : PipelineEnv) (addon : Addon) (p : String) :
    (get_addon_version env addon p).1.name = addon.name := by
  unfold get_addon_version
  split <;> rfl

theorem get_addon_last_version_name (sc : Scrape) (resp : Resp String) (addon : Addon) :
    (get_addon_last_version sc resp addon).addon.name = addon.name := by
  unfold get_addon_last_version
  split_ifs <;> first
  | rfl
  | (dsimp only; split <;> rfl)

theorem check_vulns_addon_name (g : String → Bool) (resp : Resp (List VulnEntry))
    (addon : Addon) : (check_vulns_addon g resp addon).1.name = addon.name := by
  unfold check_vulns_addon
  split_ifs <;> rfl

theorem check_addon_alteration_name (installed : Tree) (resp : Resp Tree) (addon : Addon) :
    (check_addon_alteration installed resp addon).addon.name = addon.name := by
  unfold check_addon_alteration
  split_ifs <;> first
  | rfl
  | (dsimp only; split <;> rfl)

theorem analyse_one_addon_name (env : PipelineEnv)
    (addon_type key addons_path addon_name : String) :
    (analyse_one_addon env addon_type key addons_path addon_name).name = addon_name := by
  unfold analyse_one_addon
  dsimp only
  split_ifs <;>
    simp [check_addon_alteration_name, check_vulns_addon_name, get_addon_last_version_name,
      get_addon_version_name, get_addon_main_file_name, mu_adjust_name, init_addon]

/-- C8: `addon_analysis` yields exactly one terminal record per
discovered addon name, in discovery order — for every environment
(hence also when any combination of stages fails), the names of the
produced records are exactly the concatenation of the discovery results
over the `addons_paths` entries. -/
theorem addon_analysis_one_record_per_addon :
    ∀ (env : PipelineEnv) (dir_path wp_content plugins_dir themes_dir addon_type : String),
      (addon_analysis env dir_path wp_content plugins_dir themes_dir addon_type).map
          (fun a => a.name) =
        ((wp_addons_paths dir_path wp_content plugins_dir themes_dir addon_type).map
          (fun kp => env.fetch_addons kp.2 kp.1)).flatten := by
  intro env dir_path wp_content plugins_dir themes_dir addon_type
  unfold addon_analysis
  rw [List.map_flatten, List.map_map]
  refine congrArg List.flatten (List.map_congr_left ?_)
  intro kp _
  simp only [Function.comp_apply, List.map_map]
  have h1 : (env.fetch_addons kp.2 kp.1).map
        ((fun a : Addon => a.name) ∘ analyse_one_addon env addon_type kp.1 kp.2) =
      (env.fetch_addons kp.2 kp.1).map id :=
    List.map_congr_left (fun n _ => analyse_one_addon_name env addon_type kp.1 kp.2 n)
  rw [h1, List.map_id]

/-! ## C9 -/

theorem char_toNat_inj {a b : Char} (h : a.toNat = b.toNat) : a = b :=
  Char.eq_of_val_eq (UInt32.ext h)

theorem string_data_inj {a b : String} (h : a.data = b.data) : a = b := by
  cases a
  cases b
  exact congrArg String.mk h

theorem charListLe_total : ∀ x y : List Char, charListLe x y = true ∨ charListLe y x = true := by
  intro x
  induction x with
  | nil => intro y; left; rfl
  | cons a as ih =>
    intro y
    cases y with
    | nil => right; rfl
    | cons b bs =>
      by_cases h1 : a.toNat < b.toNat
      · left; simp [charListLe, h1]
      · by_cases h2 : b.toNat < a.toNat
        · right; simp [charListLe, h1, h2]
        · rcases ih bs with h | h
          · left; simp [charListLe, h1, h2, h]
          · right; simp [charListLe, h1, h2, h]

theorem charListLe_trans :
    ∀ x y z : List Char, charListLe x y = true → charListLe y z = true →
      charListLe x z = true := by
  intro x
  induction x with
  | nil => intro y z _ _; rfl
  | cons a as ih =>
    intro y z hxy hyz
    cases y with
    | nil => simp [charListLe] at hxy
    | cons b bs =>
      cases z with
      | nil => simp [charListLe] at hyz
      | cons c cs =>
        simp only [charListLe] at hxy hyz ⊢
        rcases Nat.lt_trichotomy a.toNat b.toNat with hab | hab | hab
        · rcases Nat.lt_trichotomy b.toNat c.toNat with hbc | hbc | hbc
          · simp [show a.toNat < c.toNat from by omega]
          · simp [show a.toNat < c.toNat from by omega]
          · simp [hbc, show ¬ b.toNat < c.toNat from by omega] at hyz
        · rcases Nat.lt_trichotomy b.toNat c.toNat with hbc | hbc | hbc
          · simp [show a.toNat < c.toNat from by omega]
          · have hac : ¬ a.toNat < c.toNat := by omega
            have hca : ¬ c.toNat < a.toNat := by omega
            rw [if_neg (show ¬ a.toNat < b.toNat from by omega),
              if_neg (show ¬ b.toNat < a.toNat from by omega)] at hxy
            rw [if_neg (show ¬ b.toNat < c.toNat from by omega),
              if_neg (show ¬ c.toNat < b.toNat from by omega)] at hyz
            rw [if_neg hac, if_neg hca]
            exact ih bs cs hxy hyz
          · simp [hbc, show ¬ b.toNat < c.toNat from by omega] at hyz
        · simp [hab, show ¬ a.toNat < b.toNat from by omega] at hxy

theorem charListLe_antisymm :
    ∀ x y : List Char, charListLe x y = true → charListLe y x = true → x = y := by
  intro x
  induction x with
  | nil =>
    intro y _ hyx
    cases y with
    | nil => rfl
    | cons b bs => simp [charListLe] at hyx
  | cons a as ih =>
    intro y hxy hyx
    cases y with
    | nil => simp [charListLe] at hxy
    | cons b bs =>
      simp only [charListLe] at hxy hyx
      rcases Nat.lt_trichotomy a.toNat b.toNat with hab | hab | hab
      · simp [hab, show ¬ b.toNat < a.toNat from by omega] at hyx
      · have h1 : ¬ a.toNat < b.toNat := by omega
        have h2 : ¬ b.toNat < a.toNat := by omega
        simp only [if_neg h1, if_neg h2] at hxy
        simp only [if_neg h2, if_neg h1] at hyx
        rw [char_toNat_inj hab, ih bs hxy hyx]
      · simp [hab, show ¬ a.toNat < b.toNat from by omega] at hxy

instance : IsTotal String strLeR :=
  ⟨fun a b => charListLe_total a.data b.data⟩

instance : IsTrans String strLeR :=
  ⟨fun a b c => charListLe_trans a.data b.data c.data⟩

instance : IsAntisymm String strLeR :=
  ⟨fun a b h1 h2 => string_data_inj (charListLe_antisymm a.data b.data h1 h2)⟩

/-- C9: the content-identity hash is a pure function of the
relative-path→content mapping — whenever two trees carry the same
(path, content) pairs, in any order and with arbitrary timestamps and
permissions, their hashes coincide. -/
theorem dirhash_pure :
    ∀ t1 t2 : Tree,
      List.Perm (t1.map (fun f => (f.fpath, f.content)))
        (t2.map (fun f => (f.fpath, f.content))) →
      dirhash t1 = dirhash t2 := by
  intro t1 t2 h
  have hd : List.Perm (t1.map fileDigest) (t2.map fileDigest) := by
    have h1 : t1.map fileDigest =
        (t1.map (fun f => (f.fpath, f.content))).map (fun p => p.1 ++ ":" ++ p.2) := by
      simp [List.map_map, fileDigest, Function.comp]
    have h2 : t2.map fileDigest =
        (t2.map (fun f => (f.fpath, f.content))).map (fun p => p.1 ++ ":" ++ p.2) := by
      simp [List.map_map, fileDigest, Function.comp]
    rw [h1, h2]
    exact h.map _
  unfold dirhash
  congr 1
  exact List.eq_of_perm_of_sorted
    ((List.perm_insertionSort strLeR _).trans (hd.trans (List.perm_insertionSort strLeR _).symm))
    (List.sorted_insertionSort strLeR _)
    (List.sorted_insertionSort strLeR _)

/-- C9 witness: reordered files with different mtimes and permissions
but identical path→content pairs hash identically. -/
theorem dirhash_pure_witness : dirhash exInstalled = dirhash exInstalledMeta :=
  dirhash_pure exInstalled exInstalledMeta (by decide)

/-! ## C10 -/

/-- C10: `get_wp_content` always returns at least one directory name —
when no subdirectory contains both `plugins` and `themes`, the default
"wp-content" is appended — so the constructor's `[0]` access on the
result cannot hit an empty list. -/
theorem suspects_fallback_has_first (l : List String) :
    1 ≤ (if l.length = 0 then l ++ ["wp-content"] else l).length ∧
    ((if l.length = 0 then l ++ ["wp-content"] else l).head?).isSome = true := by
  cases l with
  | nil => exact ⟨by decide, by decide⟩
  | cons a t => constructor <;> simp

theorem get_wp_content_has_first :
    ∀ (subdirs : String → List String) (dir_path : String),
      1 ≤ (get_wp_content subdirs dir_path).length ∧
      ((get_wp_content subdirs dir_path).head?).isSome = true := by
  intro f d
  unfold get_wp_content
  dsimp only
  exact suspects_fallback_has_first _

end WP
